import Mathlib

set_option maxRecDepth 40000
set_option maxHeartbeats 1000000

/-!
Verification of the Workout-Tracker pose-corrector engine.

Shallow embedding of the per-session phase-classification and repetition-
counting engine of the repository, taken from
`src/backend/pose-corrector/comprehensive_pose_corrector.py` (the
"comprehensive" engine), `professional_pose_corrector.py` (the
"professional" engine, whose `universal_rep_detection` is the path actually
driven by `process_frame` and by the API), and `pose_corrector_api.py`
(the session-control surface).

Conventions of the embedding:
* Python floats are modelled as exact rationals (`ℚ`); the quality scorer,
  which needs a square root for `np.std`, is modelled over `ℝ`.
* Python `deque(maxlen=n)` is modelled by `pushB n`, which appends and
  drops the oldest element on overflow; `l[-k:]` is `lastN k l`.
* `try/except` blocks: two exceptions are reachable in the modelled code.
  The `KeyError` raised at `comprehensive_pose_corrector.py:585` when the
  per-category threshold dict (which lacks the `phase_stability` key) is
  indexed is modelled by `CThresholds.phaseStability : Option ℕ`, `none`
  meaning the lookup raises and control jumps to the function's `except`
  handler, which returns `(rep_count, current_phase, 0.5, 0.5)` with the
  buffers that were already appended left mutated.  The `TypeError` raised
  at `professional_pose_corrector.py:444` — `self.phase_history[-5:]`
  slices a `deque`, which Python's deque does not support — has no handler
  inside `universal_rep_detection`; it propagates to `process_frame`'s
  `except`, which returns no analysis.  `universalStep` returns `none` as
  its output on that path, with the state mutations already performed
  (buffer appends, phase commit) kept.
* Prints and drawing calls have no state effect and are dropped.
-/

/-- The five movement phases (`"start"`, `"quarter"`, `"peak"`, `"return"`,
`"end"` in the Python sources). -/
inductive Phase where
  | start
  | quarter
  | peak
  | return_
  | end_
  deriving DecidableEq, Repr

/-- Model of a `deque(maxlen := cap)` append: add `a` at the back, drop from the front
when the capacity is exceeded. -/
def pushB (cap : ℕ) (l : List α) (a : α) : List α :=
  let l2 := l ++ [a]
  if l2.length ≤ cap then l2 else l2.drop (l2.length - cap)

/-- Python `l[-k:]`: the last `k` elements (the whole list when it is
shorter than `k`). -/
def lastN (k : ℕ) (l : List α) : List α :=
  l.drop (l.length - k)

/-- Maximum of a list of rationals (`0` on the empty list, which the engine
never passes). -/
def listMax : List ℚ → ℚ
  | [] => 0
  | x :: xs => xs.foldl max x

/-- Minimum of a list of rationals (`0` on the empty list). -/
def listMin : List ℚ → ℚ
  | [] => 0
  | x :: xs => xs.foldl min x

/-- Helper for `np.argmax`: index of the first occurrence of the maximum. -/
def idxOfMaxAux : List ℚ → ℕ → ℕ → ℚ → ℕ
  | [], _, bi, _ => bi
  | x :: xs, i, bi, bv =>
      if bv < x then idxOfMaxAux xs (i + 1) i x else idxOfMaxAux xs (i + 1) bi bv

/-- Model of `np.argmax` over a rational list, `0` on the empty list. -/
def idxOfMax : List ℚ → ℕ
  | [] => 0
  | x :: xs => idxOfMaxAux xs 1 0 x

/-- The allowed-transition table shared verbatim by
`comprehensive_pose_corrector.validate_and_update_phase` and
`professional_pose_corrector.validate_phase_transition`. -/
def validTransitions : Phase → List Phase
  | .start => [.quarter]
  | .quarter => [.peak, .start]
  | .peak => [.return_]
  | .return_ => [.end_, .peak]
  | .end_ => [.start]

/-! ## Comprehensive engine (`comprehensive_pose_corrector.py`) -/

/-- One ingested frame: the 8 joint angles produced by
`extract_comprehensive_features`. -/
def Frame : Type := Fin 8 → ℚ

/-- Exercise categories distinguished by
`ComprehensivePoseCorrector.load_exercise_thresholds` and
`get_primary_angles_for_exercise`; any other category string behaves like
`general` (both dict lookups fall back to their defaults). -/
inductive Category where
  | upper_body
  | lower_body
  | core
  | cardio
  | general
  deriving DecidableEq, Repr

/-- Per-category thresholds.  `phaseStability = none` records that the four
category-specific dicts in `load_exercise_thresholds` do **not** carry the
`phase_stability` key, so `category_thresholds['phase_stability']` raises
`KeyError` at line 585 (caught by the function's `except`). -/
structure CThresholds where
  minAngleRange : ℚ
  velocityThreshold : ℚ
  repCooldown : ℚ
  phaseStability : Option ℕ

/-- Lookup `exercise_thresholds['category_specific'].get(category, default)`,
with the literal values of `load_exercise_thresholds`. -/
def categoryThresholds : Category → CThresholds
  | .upper_body => ⟨30, 2, 15, none⟩
  | .lower_body => ⟨35, 6/5, 25, none⟩
  | .core => ⟨20, 9/5, 18, none⟩
  | .cardio => ⟨15, 5/2, 10, none⟩
  | .general => ⟨25, 3/2, 20, some 3⟩

/-- Translation of `get_primary_angles_for_exercise`. -/
def getPrimaryAnglesForExercise : Category → List (Fin 8)
  | .upper_body => [0, 1, 2, 3]
  | .lower_body => [4, 5, 6, 7]
  | .core => [2, 3, 4, 5]
  | .cardio => [0, 1, 6, 7]
  | .general => [0, 1, 2, 3]

/-- Session state of `ComprehensivePoseCorrector` (the fields touched by
`advanced_rep_detection` and its callees). -/
structure CState where
  angleBuffer : List Frame
  phaseBuffer : List Phase
  phaseHistoryBuffer : List Phase
  repCount : ℕ
  currentPhase : Phase
  lastRepTime : ℚ
  movementQualityHistory : List ℝ
  totalReps : ℕ
  currentCategory : Category

/-- The fresh session state built by `ComprehensivePoseCorrector.__init__`
(lines 225-248). -/
def comprehensiveInit : CState :=
  { angleBuffer := []
    phaseBuffer := []
    phaseHistoryBuffer := []
    repCount := 0
    currentPhase := .start
    lastRepTime := 0
    movementQualityHistory := []
    totalReps := 0
    currentCategory := .general }

/-- Translation of `determine_exercise_phase` (lines 617-651).  `recentVals` is
`[frame[angle_idx] for frame in recent_angles]`. -/
def determineExercisePhase (th : CThresholds) (current : Phase)
    (primaryAngle velocity angleRange : ℚ) (recentVals : List ℚ) : Phase :=
  if angleRange < th.minAngleRange then current
  else
    let minVal := listMin recentVals
    let maxVal := listMax recentVals
    let position : ℚ :=
      if minVal < maxVal then (primaryAngle - minVal) / (maxVal - minVal) else 1/2
    match current with
    | .start =>
        if position > 1/4 ∧ velocity > th.velocityThreshold then .quarter else current
    | .quarter =>
        if position > 7/10 ∧ velocity > th.velocityThreshold * (4/5) then .peak
        else if position < 3/20 then .start else current
    | .peak =>
        if position < 3/5 ∧ velocity > th.velocityThreshold * (3/5) then .return_ else current
    | .return_ =>
        if position < 1/5 ∧ velocity < th.velocityThreshold * (1/2) then .end_
        else if position > 7/10 then .peak else current
    | .end_ =>
        if velocity < 1 ∧ position < 3/20 then .end_
        else if velocity > th.velocityThreshold ∧ position > 1/5 then .start else current

/-- Translation of `validate_and_update_phase` (lines 653-672); `k` is the resolved
`thresholds['phase_stability']` value. -/
def validateAndUpdatePhase (k : ℕ) (s : CState) (newPhase : Phase) : CState :=
  let recentPhases := lastN k s.phaseBuffer
  if recentPhases.count newPhase ≥ 2 ∧ newPhase ∈ validTransitions s.currentPhase then
    { s with currentPhase := newPhase
             phaseHistoryBuffer := pushB 10 s.phaseHistoryBuffer newPhase }
  else s

/-- Translation of `check_rep_completion` (lines 674-681). -/
def checkRepCompletion (th : CThresholds) (s : CState) (timestamp maxRange : ℚ) : Prop :=
  s.currentPhase = .end_ ∧
  timestamp - s.lastRepTime > th.repCooldown / 30 ∧
  maxRange > th.minAngleRange ∧
  s.phaseHistoryBuffer.length ≥ 3

instance (th : CThresholds) (s : CState) (t r : ℚ) :
    Decidable (checkRepCompletion th s t r) := by
  unfold checkRepCompletion; infer_instance

/-- Arithmetic mean of a real list (`np.mean`, `0/0 = 0` never hit by the
engine). -/
noncomputable def listMean (l : List ℝ) : ℝ := l.sum / l.length

/-- Model of `np.std`: population standard deviation. -/
noncomputable def listStd (l : List ℝ) : ℝ :=
  Real.sqrt ((l.map (fun x => (x - listMean l) ^ 2)).sum / l.length)

/-- Real-valued `max` of a list (`0` on the empty list). -/
noncomputable def listMaxR : List ℝ → ℝ
  | [] => 0
  | x :: xs => xs.foldl max x

/-- The canonical phase ordering `["start","quarter","peak","return","end"]`
used by the quality scorer. -/
def expectedSequence : List Phase := [.start, .quarter, .peak, .return_, .end_]

/-- Number of positional matches between the last five committed phases and
`expectedSequence`. -/
def sequenceMatches (recent : List Phase) : ℕ :=
  (List.zip recent expectedSequence).countP (fun p => p.1 = p.2)

/-- Translation of `calculate_movement_quality` (lines 683-712), as a pure function of its
inputs and of the committed-phase history it reads from `self`. -/
noncomputable def calculateMovementQuality (angleRanges velocities : List ℝ)
    (phaseHistory : List Phase) : ℝ :=
  let rangeQuality : ℝ :=
    if angleRanges ≠ [] then min (listMaxR angleRanges / 60) 1 else 1/2
  let velocityConsistency : ℝ :=
    if velocities ≠ [] ∧ 1 < velocities.length then
      max 0 (min 1 (1 - listStd velocities / (listMean velocities + 1/1000000)))
    else 1/2
  let sequenceQuality : ℝ :=
    if phaseHistory.length ≥ 5 then
      (sequenceMatches (lastN 5 phaseHistory) : ℝ) / 5
    else 1/2
  rangeQuality * (4/10) + velocityConsistency * (3/10) + sequenceQuality * (3/10)

/-- Lines 585-586: run `validate_and_update_phase` once at least
`phase_stability` votes are buffered. -/
def comprehensiveConsensusStage (k : ℕ) (s2 : CState) (newPhase : Phase) : CState :=
  if s2.phaseBuffer.length ≥ k then validateAndUpdatePhase k s2 newPhase else s2

/-- Lines 589-593: count a rep when `check_rep_completion` passes. -/
def comprehensiveRepStage (th : CThresholds) (s3 : CState) (timestamp maxRange : ℚ) : CState :=
  if checkRepCompletion th s3 timestamp maxRange then
    { s3 with repCount := s3.repCount + 1
              totalReps := s3.totalReps + 1
              lastRepTime := timestamp }
  else s3

/-- Per-frame output of `advanced_rep_detection`:
`(rep_count, phase, confidence, movement_quality)`. -/
structure CompOutput where
  repCount : ℕ
  phase : Phase
  confidence : ℚ
  quality : ℝ

/-- Translation of `advanced_rep_detection` (lines 534-604) for a frame with detected
angles: the early insufficient-data return, the angle-buffer append, metric
computation, phase candidate, consensus commit, rep check and quality
scoring, including the `KeyError` path taken for the four category-specific
threshold dicts. -/
noncomputable def comprehensiveStep (s : CState) (currentAngles : Frame) (timestamp : ℚ) :
    CState × CompOutput :=
  if s.angleBuffer.length < 15 then
    (s, ⟨s.repCount, .start, 1/2, (1/2 : ℝ)⟩)
  else
    let th := categoryThresholds s.currentCategory
    let s1 := { s with angleBuffer := pushB 60 s.angleBuffer currentAngles }
    let recentAngles := lastN 15 s1.angleBuffer
    let primaryAngles := getPrimaryAnglesForExercise s.currentCategory
    let angleRanges := primaryAngles.map (fun i =>
      let values := recentAngles.map (fun f => f i)
      listMax values - listMin values)
    let angleVelocities := primaryAngles.map (fun i =>
      let values := recentAngles.map (fun f => f i)
      |values.getD (values.length - 1) 0 - values.getD (values.length - 5) 0| / 4)
    let maxRangeIdx := idxOfMax angleRanges
    let actualAngleIdx := primaryAngles.getD maxRangeIdx 0
    let primaryAngleVal := currentAngles actualAngleIdx
    let maxVelocity := listMax angleVelocities
    let newPhase := determineExercisePhase th s.currentPhase primaryAngleVal
      maxVelocity (angleRanges.getD maxRangeIdx 0)
      (recentAngles.map (fun f => f actualAngleIdx))
    let s2 := { s1 with phaseBuffer := pushB 20 s1.phaseBuffer newPhase }
    match th.phaseStability with
    | none =>
        -- KeyError at line 585; except handler returns with buffers mutated
        (s2, ⟨s.repCount, s.currentPhase, 1/2, (1/2 : ℝ)⟩)
    | some k =>
        let s3 := comprehensiveConsensusStage k s2 newPhase
        let s4 := comprehensiveRepStage th s3 timestamp (listMax angleRanges)
        let quality := calculateMovementQuality (angleRanges.map (fun q => (q : ℝ)))
          (angleVelocities.map (fun q => (q : ℝ))) s4.phaseHistoryBuffer
        let s5 := { s4 with movementQualityHistory := pushB 30 s4.movementQualityHistory quality }
        (s5, ⟨s4.repCount, s4.currentPhase, 4/5, quality⟩)

/-- Iterated ingestion: `advanced_rep_detection` on each `(frame, timestamp)`
in order. -/
noncomputable def runComprehensive (s : CState) : List (Frame × ℚ) → CState
  | [] => s
  | (f, t) :: rest => runComprehensive (comprehensiveStep s f t).1 rest

/-! ## The §4.3 guard table, written from the spec (for refinement claims) -/

/-- Normalized position in the recent range, §4.3: `(primaryAngle - windowMin)
/ (windowMax - windowMin)`, with `0.5` when the window is degenerate. -/
def specPosition (primaryAngle windowMin windowMax : ℚ) : ℚ :=
  if windowMin < windowMax then (primaryAngle - windowMin) / (windowMax - windowMin) else 1/2

/-- The §4.3 phase classifier, written from the spec's guard table: a no-op
below `minAngleRange`; otherwise the guarded transitions from the current
committed state, unmatched guards keeping the current phase. -/
def specPhaseClassifier (minAngleRange vThresh : ℚ) (current : Phase)
    (primaryAngle velocity observedRange windowMin windowMax : ℚ) : Phase :=
  if observedRange < minAngleRange then current
  else
    let position := specPosition primaryAngle windowMin windowMax
    match current with
    | .start =>
        if position > 1/4 ∧ velocity > vThresh then .quarter else current
    | .quarter =>
        if position > 7/10 ∧ velocity > (4/5) * vThresh then .peak
        else if position < 3/20 then .start else current
    | .peak =>
        if position < 3/5 ∧ velocity > (3/5) * vThresh then .return_ else current
    | .return_ =>
        if position < 1/5 ∧ velocity < (1/2) * vThresh then .end_
        else if position > 7/10 then .peak else current
    | .end_ =>
        if velocity < 1 ∧ position < 3/20 then .end_
        else if velocity > vThresh ∧ position > 1/5 then .start else current

/-! ## Professional engine (`professional_pose_corrector.py`) -/

/-- Shape of `self.thresholds` of `ProfessionalPoseCorrector.__init__`
(lines 152-158). -/
structure PThresholds where
  minAngleRange : ℚ
  phaseStabilityFrames : ℕ
  repCooldownSeconds : ℚ
  confidenceThreshold : ℚ
  velocityThreshold : ℚ

/-- The literal professional threshold values. -/
def professionalThresholds : PThresholds :=
  { minAngleRange := 25
    phaseStabilityFrames := 3
    repCooldownSeconds := 1
    confidenceThreshold := 1/2
    velocityThreshold := 3/2 }

/-- Per-exercise angle thresholds used by `universal_rep_detection`, e.g.
`{'extended': 150, 'quarter': 120, 'peak': 70, 'return': 110}` for curls. -/
structure AngleThresholds where
  extended : ℚ
  quarter : ℚ
  peak : ℚ
  ret : ℚ

/-- The curl-branch thresholds of `universal_rep_detection` (line 335). -/
def curlThresholds : AngleThresholds := ⟨150, 120, 70, 110⟩

/-- The per-frame phase decision of `universal_rep_detection`
(lines 414-424). -/
def universalClassify (th : AngleThresholds) (primaryAngle : ℚ) : Phase :=
  if primaryAngle > th.extended then .start
  else if primaryAngle > th.quarter then .quarter
  else if primaryAngle < th.peak then .peak
  else if primaryAngle < th.ret then .return_
  else .end_

/-- Model of `max(set(phase_buffer), key=list(phase_buffer).count)` (line 433).
Python's tie-break among equally frequent phases follows unspecified set
iteration order; this model breaks ties by the canonical phase order, and
is only relied upon at inputs whose maximum count is unique, where every
tie-break agrees with Python. -/
def mostCommon (l : List Phase) : Phase :=
  [Phase.start, Phase.quarter, Phase.peak, Phase.return_, Phase.end_].foldl
    (fun best p => if l.count best < l.count p then p else best) Phase.start

/-- Session state of `ProfessionalPoseCorrector` (the fields touched by
`universal_rep_detection`, `set_target_exercise` and the API handlers).
In the `universal_rep_detection` path `angle_buffer` holds one primary
angle per frame. -/
structure PState where
  angleBuffer : List ℚ
  phaseBuffer : List Phase
  phaseHistory : List Phase
  repCount : ℕ
  currentPhase : Phase
  lastRepTime : ℚ
  repFlashTimer : ℚ
  confidenceScores : List ℚ
  formScores : List ℚ
  sessionStartTime : Option ℚ
  currentExerciseId : Option String
  currentExerciseName : String
  targetExercisePattern : Option (List ℚ)
  phaseTransitionCount : ℕ
  deriving DecidableEq

/-- Fresh `ProfessionalPoseCorrector` state (`__init__`, lines 126-150);
`t0` is the `time.time()` recorded as `session_start_time`. -/
def professionalInit (t0 : ℚ) : PState :=
  { angleBuffer := []
    phaseBuffer := []
    phaseHistory := []
    repCount := 0
    currentPhase := .start
    lastRepTime := 0
    repFlashTimer := 0
    confidenceScores := []
    formScores := []
    sessionStartTime := some t0
    currentExerciseId := none
    currentExerciseName := "No exercise selected"
    targetExercisePattern := none
    phaseTransitionCount := 0 }

/-- The consensus-commit stage of `universal_rep_detection` (lines 413-438):
classify the frame, push the candidate into the vote buffer, and once three
votes exist commit the buffer's most common phase whenever it differs from
the current one — with no transition-table check. -/
def universalCommitStage (th : AngleThresholds) (s1 : PState) (primaryAngle : ℚ) : PState :=
  let newPhase := universalClassify th primaryAngle
  let s2 := { s1 with phaseBuffer := pushB 10 s1.phaseBuffer newPhase }
  if s2.phaseBuffer.length ≥ 3 then
    let mc := mostCommon s2.phaseBuffer
    if mc ≠ s2.currentPhase then
      { s2 with currentPhase := mc, phaseHistory := pushB 20 s2.phaseHistory mc }
    else s2
  else s2

/-- The rep-completion stage of `universal_rep_detection` (lines 440-461).
Line 442-446 evaluates `cycle_complete = (len(self.phase_history) >= 3 and
'peak' in self.phase_history[-5:] and self.current_phase == "start")`, and
`phase_history` is a `deque(maxlen=20)` (line 134): slicing a deque raises
`TypeError`.  By short-circuiting, when the committed history holds fewer
than 3 entries `cycle_complete` is `False` and no rep is counted; as soon
as it holds 3 or more, line 444 raises before `rep_count += 1` (line 455),
so the increment and the history clear at lines 448-461 are unreachable
dead code.  `none` is the exception path. -/
def universalRepStage (m : PState) (_timestamp _angleRange : ℚ) : Option PState :=
  if m.phaseHistory.length ≥ 3 then
    none
  else
    some m

/-- Per-frame output of `universal_rep_detection`:
`(rep_count, phase, confidence)`. -/
structure UniOutput where
  repCount : ℕ
  phase : Phase
  confidence : ℚ
  deriving DecidableEq

/-- Translation of `universal_rep_detection` (lines 323-467) after the per-exercise
selection of `primary_angle` and `angle_thresholds`: the angle-buffer
append, the 10-frame warm-up early return, classification, majority commit,
the rep-completion stage and confidence.  For a curl-type exercise
`primaryAngle` is `min(left_elbow, right_elbow)` and `th = curlThresholds`.
The output is `none` when the rep stage raises `TypeError` (committed
history of 3 or more entries): the exception escapes to `process_frame`,
which returns no analysis, and the mutations already made (buffer appends,
phase commit) persist while the confidence-score append is skipped. -/
def universalStep (th : AngleThresholds) (s : PState) (primaryAngle timestamp : ℚ) :
    PState × Option UniOutput :=
  let s1 := { s with angleBuffer := pushB 45 s.angleBuffer primaryAngle }
  if s1.angleBuffer.length < 10 then
    (s1, some ⟨s.repCount, s.currentPhase, 1/2⟩)
  else
    let recentAngles := lastN 10 s1.angleBuffer
    let angleRange := listMax recentAngles - listMin recentAngles
    let m := universalCommitStage th s1 primaryAngle
    match universalRepStage m timestamp angleRange with
    | none => (m, none)
    | some s3 =>
        let confidence := if angleRange > 0 then min 1 (angleRange / 80) else 1/2
        let s4 := { s3 with confidenceScores := pushB 30 s3.confidenceScores confidence }
        (s4, some ⟨s3.repCount, s3.currentPhase, confidence⟩)

/-- Iterated ingestion through `universal_rep_detection`. -/
def runUniversal (th : AngleThresholds) (s : PState) : List (ℚ × ℚ) → PState
  | [] => s
  | (a, t) :: rest => runUniversal th (universalStep th s a t).1 rest

/-- Translation of `set_target_exercise` (lines 212-249): on a known exercise id, rebind
and reset the counters listed at lines 219-226 (the angle buffer is *not*
cleared); on an unknown id, return `False` and change nothing. -/
def setTargetExercise (mapping : List (String × String))
    (patterns : List (String × List ℚ)) (s : PState) (exerciseId : String) :
    Bool × PState :=
  match mapping.lookup exerciseId with
  | some name =>
      (true,
        { s with currentExerciseId := some exerciseId
                 currentExerciseName := name
                 targetExercisePattern := patterns.lookup exerciseId
                 repCount := 0
                 currentPhase := .start
                 phaseBuffer := []
                 phaseHistory := []
                 formScores := []
                 confidenceScores := []
                 lastRepTime := 0 })
  | none => (false, s)

/-! ## API surface (`pose_corrector_api.py`) -/

/-- Response of `POST /api/start-exercise` (the `ExerciseResponse` model). -/
structure ExerciseResponse where
  status : String
  exerciseId : String
  exerciseName : String
  deriving DecidableEq

/-- Translation of `start_exercise` (lines 73-88): calls `set_target_exercise` and builds a
`status="started"` response from the corrector's (possibly unchanged)
`current_exercise_name`.  The boolean returned by `set_target_exercise` is
discarded, and `set_target_exercise` raises no exception, so the
`HTTPException` branch is unreachable. -/
def apiStartExercise (mapping : List (String × String))
    (patterns : List (String × List ℚ)) (s : PState) (exerciseId : String) :
    PState × ExerciseResponse :=
  let s2 := (setTargetExercise mapping patterns s exerciseId).2
  (s2, ⟨"started", exerciseId, s2.currentExerciseName⟩)

/-- Translation of `reset_session` (`POST /api/reset`, lines 90-104): zero the rep count,
clear `phase_history`, set the phase to start and drop the session start
time.  `angle_buffer`, `phase_buffer`, the score deques and
`last_rep_time` are left untouched. -/
def resetSession (s : PState) : PState :=
  { s with repCount := 0
           phaseHistory := []
           currentPhase := .start
           sessionStartTime := none }

/-- Translation of `determine_movement_phase` of the professional engine (lines 550-590):
same shape as the comprehensive classifier but with different guard
constants and a different degenerate-window policy (return the current
phase instead of treating the position as 0.5). -/
def determineMovementPhase (th : PThresholds) (current : Phase)
    (currentAngle angleRange velocity : ℚ) (recentValues : List ℚ) : Phase :=
  if angleRange < th.minAngleRange then current
  else
    let minAngle := listMin recentValues
    let maxAngle := listMax recentValues
    if maxAngle ≤ minAngle then current
    else
      let position := (currentAngle - minAngle) / (maxAngle - minAngle)
      match current with
      | .start =>
          if position > 1/4 ∧ velocity > th.velocityThreshold then .quarter else current
      | .quarter =>
          if position > 3/4 ∧ velocity > 3/2 then .peak
          else if position < 1/5 ∧ velocity < 2 then .start else current
      | .peak =>
          if position < 7/10 ∧ velocity > 1 then .return_ else current
      | .return_ =>
          if position < 1/4 ∧ velocity < 3/2 then .end_
          else if position > 3/5 then .peak else current
      | .end_ =>
          if velocity < 1 ∧ position < 1/5 then .end_
          else if velocity > th.velocityThreshold ∧ position > 3/10 then .start else current

/-- The movement-quality formula exactly as the claim states it (velocity
consistency divides by the bare mean, no stability epsilon). -/
noncomputable def specMovementQuality (angleRanges velocities : List ℝ)
    (phaseHistory : List Phase) : ℝ :=
  let rangeQuality : ℝ := min (listMaxR angleRanges / 60) 1
  let velocityConsistency : ℝ :=
    if 2 ≤ velocities.length then
      max 0 (min 1 (1 - listStd velocities / listMean velocities))
    else 1/2
  let sequenceQuality : ℝ :=
    if phaseHistory.length ≥ 5 then
      (sequenceMatches (lastN 5 phaseHistory) : ℝ) / 5
    else 1/2
  (4/10) * rangeQuality + (3/10) * velocityConsistency + (3/10) * sequenceQuality

/-- The movement-quality formula with the amendment the code forces: the
velocity-consistency denominator is `mean + 10⁻⁶` (the numerical-stability
epsilon of line 691). -/
noncomputable def specMovementQualityEps (angleRanges velocities : List ℝ)
    (phaseHistory : List Phase) : ℝ :=
  let rangeQuality : ℝ := min (listMaxR angleRanges / 60) 1
  let velocityConsistency : ℝ :=
    if 2 ≤ velocities.length then
      max 0 (min 1 (1 - listStd velocities / (listMean velocities + 1/1000000)))
    else 1/2
  let sequenceQuality : ℝ :=
    if phaseHistory.length ≥ 5 then
      (sequenceMatches (lastN 5 phaseHistory) : ℝ) / 5
    else 1/2
  (4/10) * rangeQuality + (3/10) * velocityConsistency + (3/10) * sequenceQuality

/-! ## Concrete runs used to refute claims -/

/-- Twelve curl frames: nine warm-up frames at 160 degrees, then three at
60 degrees (classified `peak`).  All timestamps 0. -/
def framesC1 : List (ℚ × ℚ) :=
  List.replicate 9 ((160 : ℚ), (0 : ℚ)) ++ [(60, 0), (60, 0), (60, 0)]

/-- The first eleven frames of `framesC1`. -/
def framesC1pre : List (ℚ × ℚ) :=
  List.replicate 9 ((160 : ℚ), (0 : ℚ)) ++ [(60, 0), (60, 0)]

/-- Twenty-six curl frames (nine warm-up frames at 160 degrees, then
seventeen voting frames), all at timestamp 0.9 s. -/
def framesC2pre : List (ℚ × ℚ) :=
  List.replicate 9 ((160 : ℚ), (9/10 : ℚ)) ++
    [(130, 9/10), (130, 9/10), (130, 9/10), (100, 9/10), (130, 9/10),
     (130, 9/10), (130, 9/10), (60, 9/10), (60, 9/10), (60, 9/10),
     (60, 9/10), (60, 9/10), (100, 9/10), (160, 9/10), (160, 9/10),
     (160, 9/10), (160, 9/10)]

/-- The session state after ingesting `framesC2pre` from a fresh
professional session bound to a curl. -/
def stateC2 : PState := runUniversal curlThresholds (professionalInit 0) framesC2pre

/-- A constant test frame (all eight angles 90 degrees). -/
def testFrame : Frame := fun _ => 90

/-- A comprehensive session state whose committed phase is Peak and whose
angle buffer is empty. -/
def peakState : CState := { comprehensiveInit with currentPhase := .peak }

/-- A comprehensive session state holding one buffered frame. -/
def shortState : CState := { comprehensiveInit with angleBuffer := [testFrame] }

/-- A comprehensive session state whose vote buffer holds three Quarter
candidates. -/
def voteState : CState :=
  { comprehensiveInit with phaseBuffer := [.quarter, .quarter, .quarter] }

/-- A one-entry exercise catalog used in the API counterexamples. -/
def demoMapping : List (String × String) := [("abc", "bicep curl")]

/-- A professional session bound (successfully) to the exercise "abc". -/
def stateBound : PState :=
  (setTargetExercise demoMapping [] (professionalInit 0) "abc").2

/-- A fresh professional session after ingesting a single frame: its angle
buffer is no longer empty. -/
def stateAfterOneFrame : PState :=
  (universalStep curlThresholds (professionalInit 0) 90 0).1

/-! ## Helper lemmas -/

theorem le_foldl_max {α : Type} [LinearOrder α] (l : List α) :
    ∀ a : α, a ≤ l.foldl max a := by
  induction l with
  | nil => intro a; exact le_refl a
  | cons h t ih => intro a; exact le_trans (le_max_left a h) (ih (max a h))

theorem mem_le_foldl_max {α : Type} [LinearOrder α] (l : List α) :
    ∀ (a x : α), x ∈ l → x ≤ l.foldl max a := by
  induction l with
  | nil => intro a x hx; cases hx
  | cons h t ih =>
      intro a x hx
      rcases List.mem_cons.mp hx with rfl | hx
      · exact le_trans (le_max_right a x) (le_foldl_max t (max a x))
      · exact ih (max a h) x hx

theorem foldl_min_le {α : Type} [LinearOrder α] (l : List α) :
    ∀ a : α, l.foldl min a ≤ a := by
  induction l with
  | nil => intro a; exact le_refl a
  | cons h t ih => intro a; exact le_trans (ih (min a h)) (min_le_left a h)

theorem foldl_min_le_mem {α : Type} [LinearOrder α] (l : List α) :
    ∀ (a x : α), x ∈ l → l.foldl min a ≤ x := by
  induction l with
  | nil => intro a x hx; cases hx
  | cons h t ih =>
      intro a x hx
      rcases List.mem_cons.mp hx with rfl | hx
      · exact le_trans (foldl_min_le t (min a x)) (min_le_right a x)
      · exact ih (min a h) x hx

theorem le_listMax_of_mem {x : ℚ} {l : List ℚ} (hx : x ∈ l) : x ≤ listMax l := by
  cases l with
  | nil => cases hx
  | cons h t =>
      rcases List.mem_cons.mp hx with rfl | hx
      · exact le_foldl_max t x
      · exact mem_le_foldl_max t h x hx

theorem listMin_le_of_mem {x : ℚ} {l : List ℚ} (hx : x ∈ l) : listMin l ≤ x := by
  cases l with
  | nil => cases hx
  | cons h t =>
      rcases List.mem_cons.mp hx with rfl | hx
      · exact foldl_min_le t x
      · exact foldl_min_le_mem t h x hx

theorem le_listMaxR_of_mem {x : ℝ} {l : List ℝ} (hx : x ∈ l) : x ≤ listMaxR l := by
  cases l with
  | nil => cases hx
  | cons h t =>
      rcases List.mem_cons.mp hx with rfl | hx
      · exact le_foldl_max t x
      · exact mem_le_foldl_max t h x hx

theorem sequenceMatches_le_five (recent : List Phase) : sequenceMatches recent ≤ 5 := by
  calc sequenceMatches recent ≤ (List.zip recent expectedSequence).length :=
        List.countP_le_length _
    _ ≤ expectedSequence.length := by
        rw [List.length_zip]; exact min_le_right _ _
    _ = 5 := rfl

theorem universalCommitStage_repCount (th : AngleThresholds) (s : PState) (a : ℚ) :
    (universalCommitStage th s a).repCount = s.repCount := by
  unfold universalCommitStage
  dsimp only
  split <;> [skip; rfl]
  split <;> rfl

theorem universalRepStage_some_eq {m : PState} {t r : ℚ} {s3 : PState}
    (h : universalRepStage m t r = some s3) : s3 = m := by
  unfold universalRepStage at h
  split at h
  · cases h
  · exact (Option.some.inj h).symm

theorem universalStep_repCount_unchanged (th : AngleThresholds) (s : PState) (a t : ℚ) :
    (universalStep th s a t).1.repCount = s.repCount := by
  unfold universalStep
  dsimp only
  split
  · rfl
  · rcases hrep : universalRepStage
        (universalCommitStage th { s with angleBuffer := pushB 45 s.angleBuffer a } a) t
        (listMax (lastN 10 (pushB 45 s.angleBuffer a)) -
          listMin (lastN 10 (pushB 45 s.angleBuffer a))) with _ | s3
    · dsimp only
      exact universalCommitStage_repCount th _ a
    · dsimp only
      rw [universalRepStage_some_eq hrep]
      exact universalCommitStage_repCount th _ a

theorem universalStep_repCount (th : AngleThresholds) (s : PState) (a t : ℚ) :
    (universalStep th s a t).1.repCount = s.repCount ∨
    (universalStep th s a t).1.repCount = s.repCount + 1 :=
  Or.inl (universalStep_repCount_unchanged th s a t)

theorem runUniversal_mono (th : AngleThresholds) (frames : List (ℚ × ℚ)) :
    ∀ s : PState, s.repCount ≤ (runUniversal th s frames).repCount := by
  induction frames with
  | nil => intro s; exact le_refl _
  | cons p rest ih =>
      intro s
      have hstep := universalStep_repCount th s p.1 p.2
      have htail := ih (universalStep th s p.1 p.2).1
      have : s.repCount ≤ (universalStep th s p.1 p.2).1.repCount := by
        rcases hstep with h | h <;> omega
      calc s.repCount ≤ (universalStep th s p.1 p.2).1.repCount := this
        _ ≤ _ := htail

theorem validateAndUpdatePhase_repCount (k : ℕ) (s : CState) (np : Phase) :
    (validateAndUpdatePhase k s np).repCount = s.repCount := by
  unfold validateAndUpdatePhase
  dsimp only
  split <;> rfl

theorem validateAndUpdatePhase_phase_edge (k : ℕ) (s : CState) (np : Phase) :
    (validateAndUpdatePhase k s np).currentPhase = s.currentPhase ∨
    (validateAndUpdatePhase k s np).currentPhase ∈ validTransitions s.currentPhase := by
  unfold validateAndUpdatePhase
  dsimp only
  split
  · next h => exact Or.inr h.2
  · exact Or.inl rfl

theorem comprehensiveConsensusStage_repCount (k : ℕ) (s : CState) (np : Phase) :
    (comprehensiveConsensusStage k s np).repCount = s.repCount := by
  unfold comprehensiveConsensusStage
  split
  · exact validateAndUpdatePhase_repCount k s np
  · rfl

theorem comprehensiveConsensusStage_phase_edge (k : ℕ) (s : CState) (np : Phase) :
    (comprehensiveConsensusStage k s np).currentPhase = s.currentPhase ∨
    (comprehensiveConsensusStage k s np).currentPhase ∈ validTransitions s.currentPhase := by
  unfold comprehensiveConsensusStage
  split
  · exact validateAndUpdatePhase_phase_edge k s np
  · exact Or.inl rfl

theorem comprehensiveRepStage_repCount (th : CThresholds) (s : CState) (t r : ℚ) :
    (comprehensiveRepStage th s t r).repCount = s.repCount ∨
    (comprehensiveRepStage th s t r).repCount = s.repCount + 1 := by
  unfold comprehensiveRepStage
  split
  · exact Or.inr rfl
  · exact Or.inl rfl

theorem comprehensiveRepStage_currentPhase (th : CThresholds) (s : CState) (t r : ℚ) :
    (comprehensiveRepStage th s t r).currentPhase = s.currentPhase := by
  unfold comprehensiveRepStage
  split <;> rfl

theorem comprehensiveStep_early (s : CState) (f : Frame) (t : ℚ)
    (h : s.angleBuffer.length < 15) :
    comprehensiveStep s f t = (s, ⟨s.repCount, .start, 1/2, (1/2 : ℝ)⟩) := by
  unfold comprehensiveStep
  rw [if_pos h]

theorem comprehensiveRepStage_repCount' (th : CThresholds) (s3 : CState) (t r : ℚ)
    (rc : ℕ) (h : s3.repCount = rc) :
    (comprehensiveRepStage th s3 t r).repCount = rc ∨
    (comprehensiveRepStage th s3 t r).repCount = rc + 1 := by
  subst h; exact comprehensiveRepStage_repCount th s3 t r

theorem comprehensiveStep_repCount (s : CState) (f : Frame) (t : ℚ) :
    (comprehensiveStep s f t).1.repCount = s.repCount ∨
    (comprehensiveStep s f t).1.repCount = s.repCount + 1 := by
  obtain ⟨ab, pb, ph, rc, cp, lr, mq, tr, cat⟩ := s
  unfold comprehensiveStep
  dsimp only
  split
  · exact Or.inl rfl
  · cases cat
    all_goals dsimp only [categoryThresholds]
    · exact Or.inl rfl
    · exact Or.inl rfl
    · exact Or.inl rfl
    · exact Or.inl rfl
    · exact comprehensiveRepStage_repCount' _ _ t _ rc
        (by rw [comprehensiveConsensusStage_repCount])

theorem comprehensiveRepStage_phase_edge (th : CThresholds) (s3 : CState) (t r : ℚ)
    (c : Phase)
    (h : s3.currentPhase = c ∨ s3.currentPhase ∈ validTransitions c) :
    (comprehensiveRepStage th s3 t r).currentPhase = c ∨
    (comprehensiveRepStage th s3 t r).currentPhase ∈ validTransitions c := by
  rw [comprehensiveRepStage_currentPhase]; exact h

theorem comprehensiveStep_phase_edge (s : CState) (f : Frame) (t : ℚ) :
    (comprehensiveStep s f t).1.currentPhase = s.currentPhase ∨
    (comprehensiveStep s f t).1.currentPhase ∈ validTransitions s.currentPhase := by
  obtain ⟨ab, pb, ph, rc, cp, lr, mq, tr, cat⟩ := s
  unfold comprehensiveStep
  dsimp only
  split
  · exact Or.inl rfl
  · cases cat
    all_goals dsimp only [categoryThresholds]
    · exact Or.inl rfl
    · exact Or.inl rfl
    · exact Or.inl rfl
    · exact Or.inl rfl
    · exact comprehensiveRepStage_phase_edge _ _ t _ cp
        (comprehensiveConsensusStage_phase_edge 3 _ _)

theorem runComprehensive_init_fixed (frames : List (Frame × ℚ)) :
    runComprehensive comprehensiveInit frames = comprehensiveInit := by
  induction frames with
  | nil => rfl
  | cons p rest ih =>
      have h : comprehensiveStep comprehensiveInit p.1 p.2 =
          (comprehensiveInit, ⟨comprehensiveInit.repCount, .start, 1/2, (1/2 : ℝ)⟩) :=
        comprehensiveStep_early comprehensiveInit p.1 p.2 (by decide)
      show runComprehensive (comprehensiveStep comprehensiveInit p.1 p.2).1 rest = _
      rw [h]
      exact ih

theorem runComprehensive_mono (frames : List (Frame × ℚ)) :
    ∀ s : CState, s.repCount ≤ (runComprehensive s frames).repCount := by
  induction frames with
  | nil => intro s; exact le_refl _
  | cons p rest ih =>
      intro s
      have hstep := comprehensiveStep_repCount s p.1 p.2
      have htail := ih (comprehensiveStep s p.1 p.2).1
      have hle : s.repCount ≤ (comprehensiveStep s p.1 p.2).1.repCount := by
        rcases hstep with h | h <;> omega
      exact le_trans hle htail

/-! ## Claim theorems -/

/-- Claim C1 (counterexample): In the professional engine's
`universal_rep_detection` — the ingestion path driven by `process_frame` —
twelve concrete curl frames commit the phase directly from Start to Peak:
after eleven frames the committed phase is still Start, after the twelfth
it is Peak, Quarter was never committed (it is absent from the committed
PhaseHistory), and Start→Peak is not an edge of the allowed-transition
table.  This refutes the claim that the committed phase only ever changes
along table edges. -/
theorem claim_c1_counterexample :
    framesC1 = framesC1pre ++ [((60 : ℚ), (0 : ℚ))] ∧
    (runUniversal curlThresholds (professionalInit 0) framesC1pre).currentPhase =
      Phase.start ∧
    (runUniversal curlThresholds (professionalInit 0) framesC1).currentPhase =
      Phase.peak ∧
    Phase.quarter ∉ (runUniversal curlThresholds (professionalInit 0) framesC1).phaseHistory ∧
    Phase.peak ∉ validTransitions Phase.start := by
  with_unfolding_all decide

/-- Claim C1 (amended): In the comprehensive engine, one `advanced_rep_detection`
call either leaves the committed phase unchanged or moves it along an edge
of the allowed-transition table (`validate_and_update_phase` enforces the
table); the professional `universal_rep_detection` path commits the bare
majority vote with no table check and can skip Start→Peak (see the
counterexample). -/
theorem claim_c1_amended (s : CState) (f : Frame) (t : ℚ) :
    (comprehensiveStep s f t).1.currentPhase = s.currentPhase ∨
    (comprehensiveStep s f t).1.currentPhase ∈ validTransitions s.currentPhase :=
  comprehensiveStep_phase_edge s f t

/-- Claim C3 (confirmed): In both engines the repetition count never
decreases: a single ingestion call leaves it unchanged or increments it by
exactly 1 (at most one increment per frame), and over any frame sequence
the count is monotonically non-decreasing. -/
theorem claim_c3_rep_count_monotone :
    (∀ (th : AngleThresholds) (s : PState) (a t : ℚ),
      (universalStep th s a t).1.repCount = s.repCount ∨
      (universalStep th s a t).1.repCount = s.repCount + 1) ∧
    (∀ (s : CState) (f : Frame) (t : ℚ),
      (comprehensiveStep s f t).1.repCount = s.repCount ∨
      (comprehensiveStep s f t).1.repCount = s.repCount + 1) ∧
    (∀ (th : AngleThresholds) (frames : List (ℚ × ℚ)) (s : PState),
      s.repCount ≤ (runUniversal th s frames).repCount) ∧
    (∀ (frames : List (Frame × ℚ)) (s : CState),
      s.repCount ≤ (runComprehensive s frames).repCount) :=
  ⟨universalStep_repCount, comprehensiveStep_repCount,
   runUniversal_mono, runComprehensive_mono⟩

/-- Claim C4 (confirmed): `validate_and_update_phase` commits a candidate —
replacing the committed phase and appending it to PhaseHistory — exactly
when the candidate has at least 2 votes among the last `phaseStabilityFrames`
entries of the vote buffer *and* is reachable from the committed phase in
the allowed-transition table; when either condition fails the session state
is returned unchanged. -/
theorem claim_c4_consensus_commit_iff (k : ℕ) (s : CState) (cand : Phase) :
    ((lastN k s.phaseBuffer).count cand ≥ 2 ∧ cand ∈ validTransitions s.currentPhase →
      (validateAndUpdatePhase k s cand).currentPhase = cand ∧
      (validateAndUpdatePhase k s cand).phaseHistoryBuffer =
        pushB 10 s.phaseHistoryBuffer cand) ∧
    (¬((lastN k s.phaseBuffer).count cand ≥ 2 ∧ cand ∈ validTransitions s.currentPhase) →
      validateAndUpdatePhase k s cand = s) := by
  unfold validateAndUpdatePhase
  dsimp only
  constructor
  · intro h; rw [if_pos h]; exact ⟨rfl, rfl⟩
  · intro h; rw [if_neg h]

/-- Witness for C4: with vote buffer `[Quarter, Quarter, Quarter]` and
committed phase Start, the candidate Quarter (3 votes, reachable) is
committed and appended to PhaseHistory, while the candidate Peak (0 votes)
leaves the state untouched. -/
theorem claim_c4_witness :
    ((validateAndUpdatePhase 3 voteState Phase.quarter).currentPhase = Phase.quarter ∧
     (validateAndUpdatePhase 3 voteState Phase.quarter).phaseHistoryBuffer =
       [Phase.quarter]) ∧
    validateAndUpdatePhase 3 voteState Phase.peak = voteState :=
  ⟨(claim_c4_consensus_commit_iff 3 voteState Phase.quarter).1 (by decide),
   (claim_c4_consensus_commit_iff 3 voteState Phase.peak).2 (by decide)⟩

/-- Claim C7 (counterexample): A session reached from a fresh professional
session by ingesting one frame has a non-empty angle buffer, and
`reset_session` leaves that buffer non-empty (once and twice): reset does
not leave every session buffer empty. -/
theorem claim_c7_counterexample :
    stateAfterOneFrame.angleBuffer = [90] ∧
    (resetSession stateAfterOneFrame).angleBuffer = [90] ∧
    (resetSession (resetSession stateAfterOneFrame)).angleBuffer = [90] ∧
    ([(90 : ℚ)] : List ℚ) ≠ [] := by
  with_unfolding_all decide

/-- Claim C7 (amended): `reset_session` zeroes the rep count, sets the
phase to Start, clears `phase_history` and the session start time, and is
idempotent — but it leaves the angle buffer, the vote buffer, the score
deques and `last_rep_time` untouched (they are not cleared). -/
theorem claim_c7_amended (s : PState) :
    resetSession (resetSession s) = resetSession s ∧
    (resetSession s).repCount = 0 ∧
    (resetSession s).currentPhase = Phase.start ∧
    (resetSession s).phaseHistory = [] ∧
    (resetSession s).sessionStartTime = none ∧
    (resetSession s).angleBuffer = s.angleBuffer ∧
    (resetSession s).phaseBuffer = s.phaseBuffer ∧
    (resetSession s).confidenceScores = s.confidenceScores ∧
    (resetSession s).formScores = s.formScores ∧
    (resetSession s).lastRepTime = s.lastRepTime :=
  ⟨rfl, rfl, rfl, rfl, rfl, rfl, rfl, rfl, rfl, rfl⟩

/-- Claim C8 (counterexample): With fewer than 15 buffered frames,
`advanced_rep_detection` reports the literal phase `"start"`, not the
committed phase: on a session state whose committed phase is Peak (and
empty buffer) the call leaves the state unchanged but reports Start. -/
theorem claim_c8_counterexample :
    (comprehensiveStep peakState testFrame 0).1 = peakState ∧
    (comprehensiveStep peakState testFrame 0).2.phase = Phase.start ∧
    peakState.currentPhase = Phase.peak ∧
    Phase.start ≠ Phase.peak := by
  have h := comprehensiveStep_early peakState testFrame 0 (by decide)
  rw [h]
  exact ⟨rfl, rfl, rfl, by decide⟩

/-- Claim C8 (amended): Whenever fewer than 15 frames are buffered, the
ingestion call is a defined insufficient-data no-op, never an error: the
session state is left entirely unchanged, the unchanged rep count is
reported, and the reported phase is the literal Start (which coincides
with the committed phase only when that phase is Start). -/
theorem claim_c8_amended (s : CState) (f : Frame) (t : ℚ)
    (h : s.angleBuffer.length < 15) :
    (comprehensiveStep s f t).1 = s ∧
    (comprehensiveStep s f t).2.phase = Phase.start ∧
    (comprehensiveStep s f t).2.repCount = s.repCount ∧
    (comprehensiveStep s f t).2.confidence = 1/2 ∧
    (comprehensiveStep s f t).2.quality = 1/2 := by
  rw [comprehensiveStep_early s f t h]
  exact ⟨rfl, rfl, rfl, rfl, rfl⟩

/-- Witness for C8: a session holding one buffered frame. -/
theorem claim_c8_witness :
    (comprehensiveStep shortState testFrame 5).1 = shortState ∧
    (comprehensiveStep shortState testFrame 5).2.phase = Phase.start ∧
    (comprehensiveStep shortState testFrame 5).2.repCount = shortState.repCount ∧
    (comprehensiveStep shortState testFrame 5).2.confidence = 1/2 ∧
    (comprehensiveStep shortState testFrame 5).2.quality = 1/2 :=
  claim_c8_amended shortState testFrame 5 (by decide)

/-- Claim C9 (counterexample): `POST /api/start-exercise` with an unknown
exercise id responds with the same `status = "started"` as a successful
call — echoing the previously bound exercise name — so no failure is
reported to the HTTP caller (the session state is indeed unchanged). -/
theorem claim_c9_counterexample :
    (apiStartExercise demoMapping [] stateBound "zzz").2.status = "started" ∧
    (apiStartExercise demoMapping [] stateBound "abc").2.status = "started" ∧
    (apiStartExercise demoMapping [] stateBound "zzz").2.exerciseName = "bicep curl" ∧
    (apiStartExercise demoMapping [] stateBound "zzz").1 = stateBound :=
  ⟨rfl, rfl, rfl, rfl⟩

/-- Claim C9 (amended): On an unknown exercise id, `set_target_exercise`
returns `False` and leaves the entire session state untouched (no partial
rebind); however the `start_exercise` endpoint discards that boolean and
responds `status = "started"` with the previously bound exercise name, so
the failure is not propagated to the HTTP caller. -/
theorem claim_c9_amended (mapping : List (String × String))
    (patterns : List (String × List ℚ)) (s : PState) (exerciseId : String)
    (h : mapping.lookup exerciseId = none) :
    setTargetExercise mapping patterns s exerciseId = (false, s) ∧
    apiStartExercise mapping patterns s exerciseId =
      (s, ⟨"started", exerciseId, s.currentExerciseName⟩) := by
  unfold apiStartExercise setTargetExercise
  rw [h]
  exact ⟨rfl, rfl⟩

/-- Witness for C9: the id `"zzz"` is absent from the one-entry catalog. -/
theorem claim_c9_witness :
    setTargetExercise demoMapping [] (professionalInit 0) "zzz" =
      (false, professionalInit 0) ∧
    apiStartExercise demoMapping [] (professionalInit 0) "zzz" =
      (professionalInit 0, ⟨"started", "zzz", "No exercise selected"⟩) :=
  claim_c9_amended demoMapping [] (professionalInit 0) "zzz" rfl

/-- Claim C10 (confirmed): In the comprehensive engine,
`advanced_rep_detection` returns early — leaving the whole state unchanged
and reporting `(rep_count, "start", 0.5, 0.5)` — whenever the angle buffer
holds fewer than 15 frames; since the only append to that buffer sits after
this early return, a fresh session (buffer length 0) is a fixed point of
every ingestion sequence, and every call reports rep count 0, phase Start,
confidence 0.5 and quality 0.5: no phase commit and no rep increment is
reachable through this path. -/
theorem claim_c10_buffer_invariant :
    (∀ (s : CState) (f : Frame) (t : ℚ), s.angleBuffer.length < 15 →
      comprehensiveStep s f t = (s, ⟨s.repCount, Phase.start, 1/2, (1/2 : ℝ)⟩)) ∧
    (∀ frames : List (Frame × ℚ),
      runComprehensive comprehensiveInit frames = comprehensiveInit) ∧
    (∀ (frames : List (Frame × ℚ)) (f : Frame) (t : ℚ),
      (comprehensiveStep (runComprehensive comprehensiveInit frames) f t).2 =
        ⟨0, Phase.start, 1/2, (1/2 : ℝ)⟩) := by
  refine ⟨comprehensiveStep_early, runComprehensive_init_fixed, ?_⟩
  intro frames f t
  rw [runComprehensive_init_fixed, comprehensiveStep_early comprehensiveInit f t (by decide)]
  rfl

/-- Witness for C10: the fresh session state has 0 < 15 buffered frames and
one call is the described no-op. -/
theorem claim_c10_witness :
    comprehensiveInit.angleBuffer.length < 15 ∧
    comprehensiveStep comprehensiveInit testFrame 0 =
      (comprehensiveInit, ⟨0, Phase.start, 1/2, (1/2 : ℝ)⟩) :=
  ⟨by decide, claim_c10_buffer_invariant.1 comprehensiveInit testFrame 0 (by decide)⟩

/-- Claim C2 (code_bug): the rep-counting rule the spec describes is
unreachable in `universal_rep_detection`.  `phase_history` is a
`deque(maxlen=20)`, and evaluating `'peak' in self.phase_history[-5:]` at
line 444 slices it, which raises `TypeError`; by short-circuiting this
happens exactly when the committed history holds at least 3 entries, i.e.
precisely when a cycle could complete, and the exception fires before
`rep_count += 1` at line 455 (line 538 and line 594 of the same file use
`list(...)[-k:]` correctly on the same deques, so the missing conversion
is a slip).  Concretely: after 26 curl frames the history is
`[quarter, peak]` and no rep was counted; the 27th frame commits Start,
the history reaches `[quarter, peak, start]` — a completed cycle with a
Peak, back at Start, trailing range 100° above the profile minimum, with
timestamp 0.9 s — yet the call raises (output `none`) and the rep count
stays 0.  More generally, no ingestion call of this path ever changes the
rep count. -/
theorem claim_c2_code_bug :
    stateC2.repCount = 0 ∧
    stateC2.phaseHistory = [Phase.quarter, Phase.peak] ∧
    ((universalStep curlThresholds stateC2 160 (9/10)).2 =
      (none : Option UniOutput)) ∧
    (universalStep curlThresholds stateC2 160 (9/10)).1.repCount = 0 ∧
    (universalStep curlThresholds stateC2 160 (9/10)).1.phaseHistory =
      [Phase.quarter, Phase.peak, Phase.start] ∧
    Phase.peak ∈ lastN 5 (universalStep curlThresholds stateC2 160 (9/10)).1.phaseHistory ∧
    (universalStep curlThresholds stateC2 160 (9/10)).1.currentPhase = Phase.start ∧
    listMax (lastN 10 (pushB 45 stateC2.angleBuffer 160)) -
      listMin (lastN 10 (pushB 45 stateC2.angleBuffer 160)) >
        professionalThresholds.minAngleRange ∧
    (∀ (th : AngleThresholds) (s : PState) (a t : ℚ),
      (universalStep th s a t).1.repCount = s.repCount) := by
  refine ⟨?_, ?_, ?_, ?_, ?_, ?_, ?_, ?_, universalStep_repCount_unchanged⟩ <;>
    with_unfolding_all decide

/-- Claim C5 (counterexample): The professional classifier
`determine_movement_phase` does not follow the §4.3 guard table: from
Quarter with position 0.72 and velocity 10 the table yields Peak
(position > 0.70 and velocity > 0.8·vThresh) but the professional code
keeps Quarter (its guard needs position > 0.75 and velocity > 1.5). -/
theorem claim_c5_counterexample :
    determineMovementPhase professionalThresholds Phase.quarter 72 100 10 [0, 100] =
      Phase.quarter ∧
    specPhaseClassifier professionalThresholds.minAngleRange
      professionalThresholds.velocityThreshold Phase.quarter 72 10 100
      (listMin [0, 100]) (listMax [0, 100]) = Phase.peak ∧
    Phase.quarter ≠ Phase.peak := by
  with_unfolding_all decide

/-- Claim C5 (amended): The comprehensive classifier
`determine_exercise_phase` computes its candidate exactly per the §4.3
guard table (no-op below `min_angle_range`, position 0.5 on a degenerate
window, unmatched guards keep the current phase), and whenever the primary
angle lies in the trailing window the normalized position lies in [0, 1];
the professional `determine_movement_phase` deviates from the table (see
the counterexample). -/
theorem claim_c5_classifier_matches_table :
    (∀ (th : CThresholds) (current : Phase) (pa v r : ℚ) (vals : List ℚ),
      determineExercisePhase th current pa v r vals =
        specPhaseClassifier th.minAngleRange th.velocityThreshold current pa v r
          (listMin vals) (listMax vals)) ∧
    (∀ (pa : ℚ) (vals : List ℚ), pa ∈ vals →
      0 ≤ specPosition pa (listMin vals) (listMax vals) ∧
      specPosition pa (listMin vals) (listMax vals) ≤ 1) := by
  constructor
  · intro th current pa v r vals
    unfold determineExercisePhase specPhaseClassifier specPosition
    dsimp only
    cases current <;> simp [mul_comm]
  · intro pa vals h
    have h1 := listMin_le_of_mem h
    have h2 := le_listMax_of_mem h
    unfold specPosition
    split
    · next hlt =>
        constructor
        · apply div_nonneg <;> linarith
        · rw [div_le_one (by linarith)]; linarith
    · norm_num

/-- Witness for C5: the primary angle 60 lies in the window [50, 60, 70];
the classifier agrees with the table there and the position is in [0, 1]. -/
theorem claim_c5_witness :
    (determineExercisePhase (categoryThresholds Category.general) Phase.start
        60 3 30 [50, 60, 70] =
      specPhaseClassifier 25 (3/2) Phase.start 60 3 30
        (listMin [50, 60, 70]) (listMax [50, 60, 70])) ∧
    ((60 : ℚ) ∈ [(50 : ℚ), 60, 70] ∧
     0 ≤ specPosition 60 (listMin [50, 60, 70]) (listMax [50, 60, 70]) ∧
     specPosition 60 (listMin [50, 60, 70]) (listMax [50, 60, 70]) ≤ 1) :=
  ⟨claim_c5_classifier_matches_table.1 (categoryThresholds Category.general)
      Phase.start 60 3 30 [50, 60, 70],
   by decide,
   (claim_c5_classifier_matches_table.2 60 [50, 60, 70] (by decide)).1,
   (claim_c5_classifier_matches_table.2 60 [50, 60, 70] (by decide)).2⟩

theorem listMean_velocities : listMean [(1:ℝ), 3, 1, 3] = 2 := by
  unfold listMean
  norm_num

theorem listStd_velocities : listStd [(1:ℝ), 3, 1, 3] = 1 := by
  unfold listStd
  rw [listMean_velocities]
  norm_num

/-- Claim C6 (counterexample): At the engine-shaped input of four angle
ranges `[60, 10, 10, 10]`, four velocities `[1, 3, 1, 3]` (mean 2,
population standard deviation 1) and an empty phase history, the code's
quality differs from the claimed formula: the code divides by
`mean + 10⁻⁶` (line 691), giving a velocity term of `1 - 1/2.000001`,
while the claimed formula's term is `1 - 1/2`. -/
theorem claim_c6_counterexample :
    calculateMovementQuality [60, 10, 10, 10] [1, 3, 1, 3] [] ≠
      specMovementQuality [60, 10, 10, 10] [1, 3, 1, 3] [] := by
  unfold calculateMovementQuality specMovementQuality
  dsimp only
  rw [listStd_velocities, listMean_velocities]
  norm_num [listMaxR, min_def, max_def, lastN]
  rw [if_neg (show ¬([(1:ℝ), 3, 1, 3] = []) by simp)]
  rw [if_neg (show ¬([(60:ℝ), 10, 10, 10] = []) by simp)]
  norm_num

/-- Claim C6 (amended): `calculate_movement_quality` equals the claimed
three-term weighted formula with the velocity-consistency denominator
amended to `mean + 10⁻⁶` (given a non-empty range list, as the engine
always supplies), and for every input whose angle ranges are non-negative
the score lies in [0, 1]; the missing-data defaults are exactly 0.5. -/
theorem claim_c6_quality_formula :
    (∀ (ranges velocities : List ℝ) (hist : List Phase), ranges ≠ [] →
      calculateMovementQuality ranges velocities hist =
        specMovementQualityEps ranges velocities hist) ∧
    (∀ (ranges velocities : List ℝ) (hist : List Phase),
      (∀ r ∈ ranges, 0 ≤ r) →
      0 ≤ calculateMovementQuality ranges velocities hist ∧
      calculateMovementQuality ranges velocities hist ≤ 1) := by
  constructor
  · intro ranges velocities hist hne
    unfold calculateMovementQuality specMovementQualityEps
    dsimp only
    rw [if_pos hne]
    have hB : (if velocities ≠ [] ∧ 1 < velocities.length then
        max 0 (min 1 (1 - listStd velocities / (listMean velocities + 1/1000000)))
        else (1/2 : ℝ)) =
        (if 2 ≤ velocities.length then
        max 0 (min 1 (1 - listStd velocities / (listMean velocities + 1/1000000)))
        else (1/2 : ℝ)) := by
      by_cases h2 : 2 ≤ velocities.length
      · rw [if_pos h2, if_pos]
        refine ⟨?_, by omega⟩
        intro he
        rw [he] at h2
        simp at h2
      · rw [if_neg h2, if_neg]
        intro hc
        exact h2 (by omega)
    rw [hB]
    ring
  · intro ranges velocities hist hpos
    unfold calculateMovementQuality
    dsimp only
    have hA : 0 ≤ (if ranges ≠ [] then min (listMaxR ranges / 60) 1 else (1/2 : ℝ)) ∧
        (if ranges ≠ [] then min (listMaxR ranges / 60) 1 else (1/2 : ℝ)) ≤ 1 := by
      split
      · next hne =>
          cases ranges with
          | nil => exact absurd rfl hne
          | cons r rs =>
              have hr0 : (0 : ℝ) ≤ r := hpos r (List.mem_cons_self r rs)
              have hrmax : r ≤ listMaxR (r :: rs) :=
                le_listMaxR_of_mem (List.mem_cons_self r rs)
              exact ⟨le_min (div_nonneg (by linarith) (by norm_num)) (by norm_num),
                min_le_right _ _⟩
      · norm_num
    have hB : 0 ≤ (if velocities ≠ [] ∧ 1 < velocities.length then
          max 0 (min 1 (1 - listStd velocities / (listMean velocities + 1/1000000)))
          else (1/2 : ℝ)) ∧
        (if velocities ≠ [] ∧ 1 < velocities.length then
          max 0 (min 1 (1 - listStd velocities / (listMean velocities + 1/1000000)))
          else (1/2 : ℝ)) ≤ 1 := by
      split
      · exact ⟨le_max_left 0 _, max_le (by norm_num) (min_le_left _ _)⟩
      · norm_num
    have hC : 0 ≤ (if hist.length ≥ 5 then
          ((sequenceMatches (lastN 5 hist) : ℝ)) / 5 else (1/2 : ℝ)) ∧
        (if hist.length ≥ 5 then
          ((sequenceMatches (lastN 5 hist) : ℝ)) / 5 else (1/2 : ℝ)) ≤ 1 := by
      split
      · constructor
        · positivity
        · rw [div_le_one (by norm_num)]
          have h5 := sequenceMatches_le_five (lastN 5 hist)
          exact_mod_cast h5
      · norm_num
    constructor <;> nlinarith [hA.1, hA.2, hB.1, hB.2, hC.1, hC.2]

/-- Witness for C6: at ranges `[60, 10, 10, 10]`, velocities `[1, 3, 1, 3]`
and an empty history, the engine quality equals the epsilon-amended formula
and lies in [0, 1]. -/
theorem claim_c6_witness :
    (calculateMovementQuality [60, 10, 10, 10] [1, 3, 1, 3] [] =
      specMovementQualityEps [60, 10, 10, 10] [1, 3, 1, 3] []) ∧
    (0 ≤ calculateMovementQuality [60, 10, 10, 10] [1, 3, 1, 3] [] ∧
      calculateMovementQuality [60, 10, 10, 10] [1, 3, 1, 3] [] ≤ 1) :=
  ⟨claim_c6_quality_formula.1 [60, 10, 10, 10] [1, 3, 1, 3] [] (by simp),
   claim_c6_quality_formula.2 [60, 10, 10, 10] [1, 3, 1, 3] [] (by norm_num)⟩
